/-
Verification of the navigation controller in `model.py` (ant navigation along
established idiosyncratic routes).  The mutable per-robot state kept in the
`Model` instance (`self._goal_reached`, `self._goal_name`, ...) is embedded as
an explicit `ControllerState` record; each per-tick node callback and each
externally callable method becomes a function from state (and inputs) to state
(and outputs).  Real-valued signals that only undergo field arithmetic and
comparisons are modelled over `ℚ`; signals that pass through `sqrt`/`atan2`
are modelled over `ℝ`.
-/
import Mathlib

set_option maxHeartbeats 1000000



/-- Mutable controller state: the per-robot fields captured by the closures of
`Model._make_model` and mutated by the node callbacks and the public methods
(`set_goal`, `on_displace`).  Python `None` becomes `Option.none`. -/
structure ControllerState where
  goal_reached : Bool
  goal_name : Option String
  new_goal_name : Option String
  displaced : Bool
  global_vec : ℚ × ℚ
  bot_prev_pos : ℚ × ℚ
  t_displace : Option ℚ
  t_new_goal : Option ℚ
  goal_sp : Option (List ℚ)
  t_goal_reached : Option ℚ
  deriving Repr, DecidableEq

/-- Method `Model.on_displace`: records the notification of a passive
displacement by setting the displaced flag. -/
def on_displace (s : ControllerState) : ControllerState :=
  { s with displaced := true }

/-- Method `Model.set_goal`: returns the state unchanged when the name equals
the currently applied goal; otherwise raises (second component `true`) on a
name outside the scene goal set, leaving the state unchanged; otherwise
records the pending new goal and clears the goal-reached flag. -/
def set_goal (goals_names : List String) (s : ControllerState) (name : String) :
    ControllerState × Bool :=
  if s.goal_name = some name then (s, false)
  else if name ∈ goals_names then
    ({ s with new_goal_name := some name, goal_reached := false }, false)
  else (s, true)

/-- Node callback `update_global_vec`: when no displacement is flagged and no
displacement pulse is active, accumulates the observed position delta into the
global vector (skipping the zero delta, which changes nothing); otherwise only
re-baselines the previous-position reference.  Returns the new state and the
node output (the accumulated global vector). -/
def update_global_vec (s : ControllerState) (x : ℚ × ℚ) :
    ControllerState × (ℚ × ℚ) :=
  if s.displaced = false ∧ s.t_displace = none then
    let d1 := x.1 - s.bot_prev_pos.1
    let d2 := x.2 - s.bot_prev_pos.2
    if d1 ≠ 0 ∨ d2 ≠ 0 then
      (({ s with
            global_vec := (s.global_vec.1 + d1, s.global_vec.2 + d2),
            bot_prev_pos := (s.bot_prev_pos.1 + d1, s.bot_prev_pos.2 + d2) }),
        (s.global_vec.1 + d1, s.global_vec.2 + d2))
    else (s, s.global_vec)
  else ({ s with bot_prev_pos := x }, s.global_vec)

/-- Node callback `update_displace`: a pending displacement emits 1, stamps
the pulse start time and clears the flag; afterwards 1 is emitted while the
call time is within 0.1 s of the stamp, after which the stamp is cleared and
0 is emitted. -/
def update_displace (s : ControllerState) (t : ℚ) : ControllerState × Bool :=
  if s.displaced then
    ({ s with t_displace := some t, displaced := false }, true)
  else
    match s.t_displace with
    | some t0 =>
        if t < t0 + 1/10 then (s, true)
        else ({ s with t_displace := none }, false)
    | none => (s, false)

/-- Iterated evaluation of the global-vector node over a list of observed
positions, returning the final state. -/
def runGlobalVec : ControllerState → List (ℚ × ℚ) → ControllerState
  | s, [] => s
  | s, x :: xs => runGlobalVec (update_global_vec s x).1 xs

/-- Observed position deltas of a position sequence relative to a previous
position: element i is `xs[i] - xs[i-1]`, with `p0` before the start. -/
def posDeltas (p0 : ℚ × ℚ) (xs : List (ℚ × ℚ)) : List (ℚ × ℚ) :=
  List.zipWith (fun a b => (a.1 - b.1, a.2 - b.2)) xs (p0 :: xs)

/-- Iterated evaluation of the displacement node over a list of call times,
returning the list of emitted outputs. -/
def runDisplaceOuts : ControllerState → List ℚ → List Bool
  | _, [] => []
  | s, t :: ts =>
      (update_displace s t).2 :: runDisplaceOuts (update_displace s t).1 ts

/-- ASCII uppercase of a character, as Python `str.upper` acts on the ASCII
goal and waypoint names used by the scenes. -/
def upperChar (c : Char) : Char :=
  if c.isLower then Char.ofNat (c.toNat - 32) else c

/-- ASCII uppercase of a string (Python `str.upper` on ASCII names). -/
def upperString (s : String) : String :=
  String.mk (s.data.map upperChar)

/-- Maximum of a list of reals as computed by `numpy.max` (the callers only
evaluate it on non-empty similarity arrays). -/
def npMax : List ℚ → ℚ
  | [] => 0
  | a :: l => l.foldl max a

/-- Index of the first occurrence of the maximum, as `numpy.argmax`. -/
def npArgmax (l : List ℚ) : ℕ :=
  l.findIdx (fun x => decide (x = npMax l))

/-- Semantic-pointer key of the routepoint binding a goal with its own view,
`"{0}xVIEW_{0}".format(goal_name.upper())` in `update_goal_detect`. -/
def goalRouteptKey (name : String) : String :=
  upperString name ++ "xVIEW_" ++ upperString name

/-- Node input of a single evaluation of `update_goal_detect`: logical time
and the similarity arrays of the current-goal state against the goal
vocabulary and of the previous-routepoint state against the routepoint
vocabulary. -/
structure GDInput where
  t : ℚ
  gd : List ℚ
  rd : List ℚ
  deriving Repr, DecidableEq

/-- Node callback `update_goal_detect` of `model.py`, over a scene with goal
names `gn` (the goal vocabulary is `NONE` followed by the uppercased names,
so similarity index 0 is `NONE` and index g corresponds to `gn[g-1]`) and
routepoint-vocabulary keys `rk`.  Low similarity to every goal, low
similarity to every routepoint, a resolved `NONE` goal, or a resolved
routepoint different from the goal-with-own-view routepoint all reset the
debounce stamp and return the stored flag; a qualifying match starts the
stamp, keeps it while within 0.2 s, and raises the flag strictly after
0.2 s. -/
def update_goal_detect (gn rk : List String) (s : ControllerState) (t : ℚ)
    (gd rd : List ℚ) : ControllerState × Bool :=
  if npMax gd < 45/100 then ({ s with t_goal_reached := none }, s.goal_reached)
  else if npMax rd < 45/100 then
    ({ s with t_goal_reached := none }, s.goal_reached)
  else if npArgmax gd = 0 then
    ({ s with t_goal_reached := none }, s.goal_reached)
  else if rk.getD (npArgmax rd) "" =
      goalRouteptKey (gn.getD (npArgmax gd - 1) "") then
    match s.t_goal_reached with
    | none => ({ s with t_goal_reached := some t }, s.goal_reached)
    | some t0 =>
        if t0 + 1/5 < t then
          ({ s with t_goal_reached := none, goal_reached := true }, true)
        else (s, s.goal_reached)
  else ({ s with t_goal_reached := none }, s.goal_reached)

/-- Qualifying match of one goal-detection evaluation: both similarity
arrays resolve with similarity at least 0.45, the resolved goal is not
`NONE`, and the resolved routepoint is the one binding the resolved goal
with its own view. -/
def gd_qualifies (gn rk : List String) (gd rd : List ℚ) : Bool :=
  !decide (npMax gd < 45/100) && !decide (npMax rd < 45/100) &&
  !decide (npArgmax gd = 0) &&
  decide (rk.getD (npArgmax rd) "" =
    goalRouteptKey (gn.getD (npArgmax gd - 1) ""))

/-- Iterated evaluation of the goal-detection node, returning the final
state. -/
def runGoalDetect (gn rk : List String) :
    ControllerState → List GDInput → ControllerState
  | s, [] => s
  | s, a :: L =>
      runGoalDetect gn rk (update_goal_detect gn rk s a.t a.gd a.rd).1 L

/-- Iterated evaluation of the goal-detection node, returning the emitted
outputs. -/
def runGoalDetectOuts (gn rk : List String) :
    ControllerState → List GDInput → List Bool
  | _, [] => []
  | s, a :: L =>
      (update_goal_detect gn rk s a.t a.gd a.rd).2 ::
        runGoalDetectOuts gn rk (update_goal_detect gn rk s a.t a.gd a.rd).1 L

/-- Witnessing segment for a raised goal-reached flag: a contiguous block of
evaluations that all qualify, whose last time is at least 0.2 s after its
first time. -/
def RaisedSeg (gn rk : List String) (L : List GDInput) : Prop :=
  ∃ pre mid post : List GDInput, L = pre ++ mid ++ post ∧
    (∀ c ∈ mid, gd_qualifies gn rk c.gd c.rd = true) ∧
    ∃ a b, mid.head? = some a ∧ mid.getLast? = some b ∧ a.t + 1/5 ≤ b.t

/-- Witnessing segment for a running debounce stamp `t0`: a contiguous
qualifying suffix of the processed evaluations whose first time is `t0`. -/
def TimerSeg (gn rk : List String) (L : List GDInput) (t0 : ℚ) : Prop :=
  ∃ pre mid : List GDInput, L = pre ++ mid ∧
    (∀ c ∈ mid, gd_qualifies gn rk c.gd c.rd = true) ∧
    ∃ a, mid.head? = some a ∧ a.t = t0

/-- History invariant of the goal-detection node relating the stored state to
the processed evaluations. -/
def GDInv (gn rk : List String) (L : List GDInput) (s : ControllerState) :
    Prop :=
  (s.goal_reached = true → RaisedSeg gn rk L) ∧
  (∀ t0, s.t_goal_reached = some t0 → TimerSeg gn rk L t0)

/-- Node callback `update_goal_input`: a pending goal change is applied by
recording the new goal name, stamping the change time, storing the difference
of the new and current goal codes (vocabulary code minus fed-back current
code), and clearing the pending name; the recorded difference keeps being
emitted with a set flag while within 0.1 s of the stamp, after which stamp
and difference are cleared and a zero code is emitted. -/
def update_goal_input (gvocab : String → List ℚ) (sp_dim : ℕ)
    (s : ControllerState) (t : ℚ) (x : List ℚ) :
    ControllerState × (Bool × List ℚ) :=
  match s.new_goal_name with
  | some ng =>
      ({ s with
          goal_name := some ng,
          t_new_goal := some t,
          goal_sp := some (List.zipWith (fun a b => a - b) (gvocab (upperString ng)) x),
          new_goal_name := none },
        (true, List.zipWith (fun a b => a - b) (gvocab (upperString ng)) x))
  | none =>
      match s.t_new_goal with
      | some t0 =>
          if t < t0 + 1/10 then (s, (true, s.goal_sp.getD []))
          else ({ s with t_new_goal := none, goal_sp := none },
            (false, List.replicate sp_dim 0))
      | none => (s, (false, List.replicate sp_dim 0))

/-- Node callback `update_wheel_speeds`: a motion vector of Euclidean norm
below the stop margin 0.05 stops both wheels; otherwise the heading error is
`atan2(y, x)` (the argument of the complex number `x + y i`), and the command
is curvilinear forward motion `(5 - θ, 5 + θ)` for `-0.4 < θ < 0.4` and
in-place rotation `(-5 θ, 5 θ)` otherwise. -/
noncomputable def update_wheel_speeds (x : ℝ × ℝ) : ℝ × ℝ :=
  if Real.sqrt (x.1 ^ 2 + x.2 ^ 2) < 0.05 then (0, 0)
  else if -0.4 < Complex.arg ⟨x.1, x.2⟩ ∧ Complex.arg ⟨x.1, x.2⟩ < 0.4 then
    (5 - Complex.arg ⟨x.1, x.2⟩, 5 + Complex.arg ⟨x.1, x.2⟩)
  else (-5 * Complex.arg ⟨x.1, x.2⟩, 5 * Complex.arg ⟨x.1, x.2⟩)

/-- Node input of one evaluation of `update_catch_vec`: nearest-waypoint id
and normalized distance (from `update_catch_area`, with -1 outside every
catchment area), the observed robot position, and the fed-back view-match
comparison. -/
structure CatchVecInput where
  waypt_id : ℕ
  norm_waypt_dist : ℝ
  bot_pos : ℝ × ℝ
  view7view : ℝ

/-- Vector from the robot position to the indexed waypoint,
`self.scene.waypts_pos[int(x[0])] - x[2:4]` in `update_catch_vec`. -/
noncomputable def catchVecRaw (wpos : List (ℝ × ℝ)) (x : CatchVecInput) :
    ℝ × ℝ :=
  ((wpos.getD x.waypt_id (0, 0)).1 - x.bot_pos.1,
   (wpos.getD x.waypt_id (0, 0)).2 - x.bot_pos.2)

/-- Normalization factor `np.sqrt(catch_vec**2).sum()` of `update_catch_vec`:
the square root is applied elementwise and the results are summed, so this is
the sum of the absolute values of the components (the L1 norm), not the
Euclidean norm. -/
noncomputable def catchVecNorm (wpos : List (ℝ × ℝ)) (x : CatchVecInput) :
    ℝ :=
  Real.sqrt ((catchVecRaw wpos x).1 ^ 2) +
    Real.sqrt ((catchVecRaw wpos x).2 ^ 2)

/-- Node callback `update_catch_vec`: when the normalized waypoint distance
is strictly positive and the fed-back view comparison strictly exceeds the
threshold, outputs the waypoint-pointing vector divided by `catchVecNorm`
together with the gain `min((1 - d)/(1 - core), 1)`; otherwise zeros. -/
noncomputable def update_catch_vec (catch_vec_thres catch_vec_core : ℝ)
    (wpos : List (ℝ × ℝ)) (x : CatchVecInput) : ℝ × ℝ × ℝ :=
  if 0 < x.norm_waypt_dist ∧ catch_vec_thres < x.view7view then
    ((catchVecRaw wpos x).1 / catchVecNorm wpos x,
     (catchVecRaw wpos x).2 / catchVecNorm wpos x,
     min ((1 - x.norm_waypt_dist) / (1 - catch_vec_core)) 1)
  else (0, 0, 0)

/-- Static scene data consumed by `Model.validate_params`. -/
structure Scene where
  goals_names : List String
  waypts_pos : List (ℚ × ℚ)
  routes_names : List String
  routes_waypts_names : List (List String)

/-- Configuration parameters consumed by `Model.validate_params`. -/
structure Params where
  catch_area_radius : ℝ
  catch_vec_core : ℝ
  saved_data : List String

/-- Class attribute `Model.probeable`: the signal names that may be requested
for recording. -/
def probeable : List String :=
  ["action_names", "bg", "bot_orient", "bot_pos", "catch_area",
   "catch_vec", "displace", "gain_catch_vec", "gain_catch_vec_neurons",
   "gate_reset", "gate_routept_cleanup", "gate_target_vec",
   "gate_target_vec_goal", "gate_view_routept", "global_vec", "goal",
   "goal_neurons", "goal0view", "goal_detect", "goal_input",
   "goals2goals_vecs", "goals_names", "goals_vocab", "motion_vec",
   "motion_vec_neurons", "next_routept", "next_routept_neurons",
   "norm_target_vec", "prev2next_routepts", "prev_routept",
   "prev_routept_neurons", "routept_cleanup", "routepts2norm_local_vecs",
   "routepts2views", "routepts_vocab", "routes_waypts_names",
   "routes_waypts_pos", "scaled_catch_vec", "scaled_local_vec",
   "scaled_target_vec", "target_vec", "target_vec_neurons", "thal",
   "thal_neurons", "view", "view_neurons", "view7view", "view_routept",
   "view_routept_neurons", "views_vocab", "vision", "waypts_names",
   "waypts_pos", "wheel_speeds"]

/-- Squared distances between all ordered pairs of distinct waypoint
positions, as enumerated by the generator inside `validate_params`. -/
def sqDistList : List (ℚ × ℚ) → List ℚ
  | [] => []
  | p :: rest =>
      rest.map (fun q => (p.1 - q.1) ^ 2 + (p.2 - q.2) ^ 2) ++ sqDistList rest

/-- Conjunction of the checks of `Model.validate_params`, in code order:
the method returns normally exactly when every assert condition holds (and
the minimum over the pair distances exists, `min` of an empty generator
being itself an error). -/
def validate_params_ok (params : Params) (scene : Scene) : Prop :=
  2 ≤ scene.goals_names.length ∧
  (∀ g ∈ scene.goals_names, upperString g ≠ "NONE") ∧
  (∃ m, (sqDistList scene.waypts_pos).min? = some m ∧
    params.catch_area_radius < Real.sqrt (m : ℝ) / 2) ∧
  params.catch_vec_core < 1 ∧
  1 ≤ scene.routes_names.length ∧
  (∀ route ∈ scene.routes_waypts_names,
    ∃ w, route.getLast? = some w ∧ w ∈ scene.goals_names) ∧
  (∀ nm ∈ params.saved_data, nm ∈ probeable)

/-- Failure conditions of C8, phrased from the claim: fewer than 2 goals, a
goal named NONE case-insensitively, radius not strictly below half the
minimum pairwise waypoint distance, core fraction at least 1, zero routes, a
route whose final waypoint is not a goal, or an unprobeable requested
signal. -/
def validate_params_fails_spec (params : Params) (scene : Scene) : Prop :=
  scene.goals_names.length < 2 ∨
  (∃ g ∈ scene.goals_names, upperString g = "NONE") ∨
  (∃ m, (sqDistList scene.waypts_pos).min? = some m ∧
    Real.sqrt (m : ℝ) / 2 ≤ params.catch_area_radius) ∨
  1 ≤ params.catch_vec_core ∨
  scene.routes_names = [] ∨
  (∃ route ∈ scene.routes_waypts_names,
    ∃ w, route.getLast? = some w ∧ w ∉ scene.goals_names) ∨
  (∃ nm ∈ params.saved_data, nm ∉ probeable)

lemma update_global_vec_of_clear (s : ControllerState) (x : ℚ × ℚ)
    (h1 : s.displaced = false) (h2 : s.t_displace = none) :
    (update_global_vec s x).1.global_vec =
      (s.global_vec.1 + (x.1 - s.bot_prev_pos.1),
       s.global_vec.2 + (x.2 - s.bot_prev_pos.2)) ∧
    (update_global_vec s x).1.bot_prev_pos = x ∧
    (update_global_vec s x).1.displaced = false ∧
    (update_global_vec s x).1.t_displace = none := by
  unfold update_global_vec
  rw [if_pos ⟨h1, h2⟩]
  by_cases hd : x.1 - s.bot_prev_pos.1 ≠ 0 ∨ x.2 - s.bot_prev_pos.2 ≠ 0
  · rw [if_pos hd]
    refine ⟨rfl, ?_, h1, h2⟩
    have e1 : s.bot_prev_pos.1 + (x.1 - s.bot_prev_pos.1) = x.1 := by ring
    have e2 : s.bot_prev_pos.2 + (x.2 - s.bot_prev_pos.2) = x.2 := by ring
    simp only [e1, e2]
  · rw [if_neg hd]
    push_neg at hd
    obtain ⟨e1, e2⟩ := hd
    have hx1 : x.1 = s.bot_prev_pos.1 := by linarith [sub_eq_zero.mp e1]
    have hx2 : x.2 = s.bot_prev_pos.2 := by linarith [sub_eq_zero.mp e2]
    refine ⟨?_, ?_, h1, h2⟩
    · simp [hx1, hx2]
    · rw [Prod.ext_iff]
      exact ⟨hx1.symm, hx2.symm⟩

lemma runGlobalVec_global_vec (xs : List (ℚ × ℚ)) :
    ∀ s : ControllerState, s.displaced = false → s.t_displace = none →
      (runGlobalVec s xs).global_vec =
        (s.global_vec.1 + ((posDeltas s.bot_prev_pos xs).map Prod.fst).sum,
         s.global_vec.2 + ((posDeltas s.bot_prev_pos xs).map Prod.snd).sum) := by
  induction xs with
  | nil => intro s _ _; simp [runGlobalVec, posDeltas]
  | cons x xs ih =>
      intro s h1 h2
      obtain ⟨hg, hp, hd, ht⟩ := update_global_vec_of_clear s x h1 h2
      have := ih (update_global_vec s x).1 hd ht
      rw [runGlobalVec, this, hg, hp]
      simp only [posDeltas, List.zipWith_cons_cons, List.map_cons, List.sum_cons,
        Prod.mk.injEq]
      constructor <;> ring

lemma posDeltas_telescope (xs : List (ℚ × ℚ)) :
    ∀ p0 : ℚ × ℚ,
      (((posDeltas p0 xs).map Prod.fst).sum,
       ((posDeltas p0 xs).map Prod.snd).sum) =
        ((xs.getLastD p0).1 - p0.1, (xs.getLastD p0).2 - p0.2) := by
  induction xs with
  | nil => intro p0; simp [posDeltas]
  | cons x xs ih =>
      intro p0
      have := ih x
      simp only [posDeltas, List.zipWith_cons_cons, List.map_cons,
        List.sum_cons, List.getLastD_cons] at this ⊢
      rw [Prod.ext_iff] at this ⊢
      simp only at this ⊢
      constructor <;> [linarith [this.1]; linarith [this.2]]

/-- C4: calling `set_goal` with a name outside the scene goal set that differs
from the currently applied goal raises (the error flag is set) and leaves the
whole controller state unchanged, field for field. -/
theorem set_goal_invalid_raises_state_unchanged
    (goals_names : List String) (s : ControllerState) (name : String)
    (h1 : name ∉ goals_names) (h2 : s.goal_name ≠ some name) :
    set_goal goals_names s name = (s, true) := by
  unfold set_goal
  rw [if_neg h2, if_neg h1]

/-- C4 witness: a concrete invalid goal name raises and the state is returned
unchanged. -/
theorem set_goal_invalid_raises_state_unchanged_witness :
    ("Feed9" ∉ ["Nest", "Feed1"]) ∧
    (ControllerState.mk false none (some "NONE") false (0, 0) (0, 0)
        none none none none).goal_name ≠ some "Feed9" ∧
    set_goal ["Nest", "Feed1"]
      (ControllerState.mk false none (some "NONE") false (0, 0) (0, 0)
        none none none none) "Feed9" =
      (ControllerState.mk false none (some "NONE") false (0, 0) (0, 0)
        none none none none, true) :=
  ⟨by decide, by decide,
    set_goal_invalid_raises_state_unchanged _ _ _ (by decide) (by decide)⟩

/-- C5: calling `set_goal` with the currently applied goal name is a no-op:
no error is raised and every controller field keeps its value. -/
theorem set_goal_same_goal_noop
    (goals_names : List String) (s : ControllerState) (name : String)
    (h : s.goal_name = some name) :
    set_goal goals_names s name = (s, false) := by
  unfold set_goal
  rw [if_pos h]

/-- C5 witness: re-issuing the concrete current goal is a no-op. -/
theorem set_goal_same_goal_noop_witness :
    (ControllerState.mk false (some "Feed1") none false (0, 0) (0, 0)
        none none none none).goal_name = some "Feed1" ∧
    set_goal ["Nest", "Feed1"]
      (ControllerState.mk false (some "Feed1") none false (0, 0) (0, 0)
        none none none none) "Feed1" =
      (ControllerState.mk false (some "Feed1") none false (0, 0) (0, 0)
        none none none none, false) :=
  ⟨by decide, set_goal_same_goal_noop _ _ _ (by decide)⟩

/-- C7: while a displacement is pending (flag set) or active (pulse stamp not
yet cleared), an evaluation of the global-vector node only re-baselines the
previous-position reference to the current observed position; the accumulated
global vector and every other field are unchanged, and the output is the
unchanged global vector. -/
theorem global_vec_displacement_frame
    (s : ControllerState) (x : ℚ × ℚ)
    (h : s.displaced = true ∨ s.t_displace ≠ none) :
    update_global_vec s x = ({ s with bot_prev_pos := x }, s.global_vec) := by
  unfold update_global_vec
  rw [if_neg]
  rintro ⟨h1, h2⟩
  rcases h with h | h
  · rw [h] at h1; exact Bool.true_eq_false.mp h1
  · exact h h2

/-- C7 witness: with the displaced flag set and a nonzero position jump, the
global vector is untouched and only the previous-position reference moves. -/
theorem global_vec_displacement_frame_witness :
    ((ControllerState.mk false none (some "NONE") true (1, 2) (0, 0)
        none none none none).displaced = true ∨
      (ControllerState.mk false none (some "NONE") true (1, 2) (0, 0)
        none none none none).t_displace ≠ none) ∧
    update_global_vec
      (ControllerState.mk false none (some "NONE") true (1, 2) (0, 0)
        none none none none) (7, 9) =
      (ControllerState.mk false none (some "NONE") true (1, 2) (7, 9)
        none none none none, (1, 2)) :=
  ⟨Or.inl (by decide),
    global_vec_displacement_frame _ _ (Or.inl (by decide))⟩

/-- C2: over any sequence of evaluations of the global-vector node during
which no displacement is pending or active, the final global vector equals
the starting global vector plus the exact sum of the observed position deltas,
and that sum telescopes to the difference of the observed positions between
the last tick and the start. -/
theorem global_vec_accumulates_deltas
    (s : ControllerState) (xs : List (ℚ × ℚ))
    (h1 : s.displaced = false) (h2 : s.t_displace = none) :
    (runGlobalVec s xs).global_vec =
      (s.global_vec.1 + ((posDeltas s.bot_prev_pos xs).map Prod.fst).sum,
       s.global_vec.2 + ((posDeltas s.bot_prev_pos xs).map Prod.snd).sum) ∧
    (((posDeltas s.bot_prev_pos xs).map Prod.fst).sum,
     ((posDeltas s.bot_prev_pos xs).map Prod.snd).sum) =
      ((xs.getLastD s.bot_prev_pos).1 - s.bot_prev_pos.1,
       (xs.getLastD s.bot_prev_pos).2 - s.bot_prev_pos.2) :=
  ⟨runGlobalVec_global_vec xs s h1 h2, posDeltas_telescope xs s.bot_prev_pos⟩

/-- C2 witness: a concrete three-tick trajectory accumulates exactly the sum
of its position deltas. -/
theorem global_vec_accumulates_deltas_witness :
    (ControllerState.mk false none (some "NONE") false (5, 5) (1, 1)
        none none none none).displaced = false ∧
    (ControllerState.mk false none (some "NONE") false (5, 5) (1, 1)
        none none none none).t_displace = none ∧
    (runGlobalVec
        (ControllerState.mk false none (some "NONE") false (5, 5) (1, 1)
          none none none none)
        [(2, 3), (2, 3), (4, 0)]).global_vec = (8, 4) := by
  refine ⟨rfl, rfl, ?_⟩
  have h := (global_vec_accumulates_deltas
    (ControllerState.mk false none (some "NONE") false (5, 5) (1, 1)
      none none none none)
    [(2, 3), (2, 3), (4, 0)] (by decide) (by decide)).1
  rw [h]
  norm_num [posDeltas, List.zipWith]

lemma update_displace_idle (s : ControllerState) (t : ℚ)
    (h1 : s.displaced = false) (h2 : s.t_displace = none) :
    update_displace s t = (s, false) := by
  unfold update_displace
  rw [h1, h2]
  rfl

lemma runDisplaceOuts_idle (ts : List ℚ) :
    ∀ s : ControllerState, s.displaced = false → s.t_displace = none →
      runDisplaceOuts s ts = ts.map (fun _ => false) := by
  induction ts with
  | nil => intro s _ _; rfl
  | cons t ts ih =>
      intro s h1 h2
      rw [runDisplaceOuts, update_displace_idle s t h1 h2, List.map_cons]
      exact congrArg _ (ih s h1 h2)

lemma runDisplaceOuts_pulse (ts : List ℚ) :
    ∀ s : ControllerState, ∀ t0 : ℚ, ts.Sorted (· ≤ ·) →
      s.displaced = false → s.t_displace = some t0 →
      runDisplaceOuts s ts = ts.map (fun t => decide (t < t0 + 1/10)) := by
  induction ts with
  | nil => intro s t0 _ _ _; rfl
  | cons t ts ih =>
      intro s t0 hsort h1 h2
      obtain ⟨hle, hsort'⟩ := List.sorted_cons.mp hsort
      by_cases ht : t < t0 + 1/10
      · have hstep : update_displace s t = (s, true) := by
          unfold update_displace
          rw [h1, h2]
          simp only [Bool.false_eq_true, if_false]
          rw [if_pos ht]
        rw [runDisplaceOuts, hstep, List.map_cons, decide_eq_true ht]
        exact congrArg _ (ih s t0 hsort' h1 h2)
      · have hstep : update_displace s t =
            ({ s with t_displace := none }, false) := by
          unfold update_displace
          rw [h1, h2]
          simp only [Bool.false_eq_true, if_false]
          rw [if_neg ht]
        rw [runDisplaceOuts, hstep, List.map_cons]
        have hall : ∀ u ∈ ts, (fun v => decide (v < t0 + 1/10)) u =
            (fun _ => false) u := by
          intro u hu
          simp only [decide_eq_false_iff_not, not_lt]
          have := hle u hu
          linarith [not_lt.mp ht]
        rw [List.map_congr_left hall,
          runDisplaceOuts_idle ts { s with t_displace := none } h1 rfl,
          decide_eq_false ht]

/-- C9: the displacement signal is a self-terminating one-shot pulse.  After
`on_displace` sets the displaced flag, the next evaluation (at time `t0`)
emits 1 and clears the flag, every evaluation at a time strictly below
`t0 + 0.1` emits 1, and every evaluation at a later time emits 0; over any
nondecreasing time sequence the outputs are exactly the indicator of
`t < t0 + 0.1`, so without a new `on_displace` the output never returns
to 1. -/
theorem displace_one_shot_pulse (s : ControllerState) (t0 : ℚ) (ts : List ℚ)
    (h1 : s.displaced = true) (h2 : (t0 :: ts).Sorted (· ≤ ·)) :
    (update_displace s t0).1.displaced = false ∧
    (update_displace s t0).1.t_displace = some t0 ∧
    runDisplaceOuts s (t0 :: ts) =
      (t0 :: ts).map (fun t => decide (t < t0 + 1/10)) := by
  have hstep : update_displace s t0 =
      ({ s with t_displace := some t0, displaced := false }, true) := by
    unfold update_displace
    rw [h1]
    rfl
  refine ⟨by rw [hstep], by rw [hstep], ?_⟩
  rw [runDisplaceOuts, hstep, List.map_cons,
    decide_eq_true (by norm_num : t0 < t0 + (1 : ℚ)/10)]
  exact congrArg _ (runDisplaceOuts_pulse ts _ t0
    (List.sorted_cons.mp h2).2 rfl rfl)

/-- C9 witness: a concrete pulse started at time 0 stays high at 0.05 and
drops at 0.15 and 0.2. -/
theorem displace_one_shot_pulse_witness :
    (ControllerState.mk false none (some "NONE") true (0, 0) (0, 0)
        none none none none).displaced = true ∧
    runDisplaceOuts
      (ControllerState.mk false none (some "NONE") true (0, 0) (0, 0)
        none none none none) (0 :: [1/20, 3/20, 1/5]) =
      [true, true, false, false] := by
  refine ⟨rfl, ?_⟩
  have h := (displace_one_shot_pulse
    (ControllerState.mk false none (some "NONE") true (0, 0) (0, 0)
      none none none none) 0 [1/20, 3/20, 1/5] rfl
    (by simp [List.sorted_cons]; norm_num)).2.2
  rw [h]
  norm_num

lemma update_goal_detect_char (gn rk : List String) (s : ControllerState)
    (t : ℚ) (gd rd : List ℚ) :
    update_goal_detect gn rk s t gd rd =
      if gd_qualifies gn rk gd rd then
        match s.t_goal_reached with
        | none => ({ s with t_goal_reached := some t }, s.goal_reached)
        | some t0 =>
            if t0 + 1/5 < t then
              ({ s with t_goal_reached := none, goal_reached := true }, true)
            else (s, s.goal_reached)
      else ({ s with t_goal_reached := none }, s.goal_reached) := by
  unfold update_goal_detect gd_qualifies
  by_cases h1 : npMax gd < 45/100
  · simp [h1]
  · by_cases h2 : npMax rd < 45/100
    · simp [h1, h2]
    · by_cases h3 : npArgmax gd = 0
      · simp [h1, h2, h3]
      · by_cases h4 : rk.getD (npArgmax rd) "" =
            goalRouteptKey (gn.getD (npArgmax gd - 1) "")
        · simp [h1, h2, h3, h4]
        · simp [h1, h2, h3, h4]

lemma RaisedSeg_append (gn rk : List String) (L M : List GDInput)
    (h : RaisedSeg gn rk L) : RaisedSeg gn rk (L ++ M) := by
  obtain ⟨pre, mid, post, hL, hq, a, b, ha, hb, ht⟩ := h
  exact ⟨pre, mid, post ++ M, by rw [hL]; simp [List.append_assoc], hq,
    a, b, ha, hb, ht⟩

lemma TimerSeg_snoc (gn rk : List String) (L : List GDInput) (t0 : ℚ)
    (a : GDInput) (h : TimerSeg gn rk L t0)
    (hq : gd_qualifies gn rk a.gd a.rd = true) :
    TimerSeg gn rk (L ++ [a]) t0 := by
  obtain ⟨pre, mid, hL, hmid, a0, ha0, ht0⟩ := h
  refine ⟨pre, mid ++ [a], by rw [hL, List.append_assoc], ?_, a0, ?_, ht0⟩
  · intro c hc
    rcases List.mem_append.mp hc with hc | hc
    · exact hmid c hc
    · rw [List.mem_singleton.mp hc]; exact hq
  · rw [List.head?_append_of_ne_nil mid (by rintro rfl; simp at ha0)]
    exact ha0

lemma TimerSeg_raise (gn rk : List String) (L : List GDInput) (t0 : ℚ)
    (a : GDInput) (h : TimerSeg gn rk L t0)
    (hq : gd_qualifies gn rk a.gd a.rd = true) (ht : t0 + 1/5 ≤ a.t) :
    RaisedSeg gn rk (L ++ [a]) := by
  obtain ⟨pre, mid, hL, hmid, a0, ha0, ht0⟩ := h
  refine ⟨pre, mid ++ [a], [], by rw [hL]; simp [List.append_assoc], ?_,
    a0, a, ?_, List.getLast?_concat mid, ?_⟩
  · intro c hc
    rcases List.mem_append.mp hc with hc | hc
    · exact hmid c hc
    · rw [List.mem_singleton.mp hc]; exact hq
  · rw [List.head?_append_of_ne_nil mid (by rintro rfl; simp at ha0)]
    exact ha0
  · rw [ht0]; exact ht

lemma GDInv_step (gn rk : List String) (L : List GDInput)
    (s : ControllerState) (a : GDInput) (h : GDInv gn rk L s) :
    GDInv gn rk (L ++ [a]) (update_goal_detect gn rk s a.t a.gd a.rd).1 := by
  obtain ⟨hflag, htimer⟩ := h
  rw [update_goal_detect_char]
  by_cases hq : gd_qualifies gn rk a.gd a.rd = true
  · rw [if_pos hq]
    cases hgr : s.t_goal_reached with
    | none =>
        constructor
        · intro hf
          exact RaisedSeg_append gn rk L [a] (hflag hf)
        · intro t1 ht1
          have : t1 = a.t := by
            simpa using ht1.symm
          subst this
          exact ⟨L, [a], rfl, by simpa using hq, a, rfl, rfl⟩
    | some t0 =>
        dsimp only
        by_cases htt : t0 + 1/5 < a.t
        · rw [if_pos htt]
          constructor
          · intro _
            exact TimerSeg_raise gn rk L t0 a (htimer t0 hgr) hq (le_of_lt htt)
          · intro t1 ht1
            exact absurd ht1 (by simp)
        · rw [if_neg htt]
          constructor
          · intro hf
            exact RaisedSeg_append gn rk L [a] (hflag hf)
          · intro t1 ht1
            rw [hgr] at ht1
            have : t1 = t0 := by simpa using ht1.symm
            subst this
            exact TimerSeg_snoc gn rk L t1 a (htimer t1 hgr) hq
  · rw [if_neg hq]
    constructor
    · intro hf
      exact RaisedSeg_append gn rk L [a] (hflag hf)
    · intro t1 ht1
      exact absurd ht1 (by simp)

lemma GDInv_run (gn rk : List String) (M : List GDInput) :
    ∀ (L : List GDInput) (s : ControllerState), GDInv gn rk L s →
      GDInv gn rk (L ++ M) (runGoalDetect gn rk s M) := by
  induction M with
  | nil => intro L s h; simpa [runGoalDetect] using h
  | cons a M ih =>
      intro L s h
      rw [runGoalDetect]
      have h2 := ih (L ++ [a]) _ (GDInv_step gn rk L s a h)
      rw [List.append_assoc] at h2
      simpa using h2

/-- C3: the goal-reached flag becomes true only after a contiguous block of
qualifying evaluations (goal and routepoint both resolving at similarity at
least 0.45, goal not `NONE`, routepoint equal to the goal bound with its very
own view) spanning at least 0.2 s of logical time; moreover a single
qualifying evaluation followed by a non-matching one emits false at both
ticks and leaves the flag down, since the non-matching tick resets the
debounce stamp. -/
theorem goal_detect_debounce (gn rk : List String) :
    (∀ (s : ControllerState) (L : List GDInput),
        s.goal_reached = false → s.t_goal_reached = none →
        (runGoalDetect gn rk s L).goal_reached = true → RaisedSeg gn rk L) ∧
    (∀ (s : ControllerState) (a b : GDInput),
        s.goal_reached = false → s.t_goal_reached = none →
        gd_qualifies gn rk a.gd a.rd = true →
        gd_qualifies gn rk b.gd b.rd = false →
        runGoalDetectOuts gn rk s [a, b] = [false, false] ∧
        (runGoalDetect gn rk s [a, b]).goal_reached = false) := by
  constructor
  · intro s L hf ht hrun
    have hbase : GDInv gn rk [] s := by
      constructor
      · intro h; rw [hf] at h; exact absurd h (by simp)
      · intro t0 h; rw [ht] at h; exact absurd h (by simp)
    have h := GDInv_run gn rk L [] s hbase
    rw [List.nil_append] at h
    exact h.1 hrun
  · intro s a b hf ht hqa hqb
    have hstep1 : update_goal_detect gn rk s a.t a.gd a.rd =
        ({ s with t_goal_reached := some a.t }, s.goal_reached) := by
      rw [update_goal_detect_char, if_pos hqa, ht]
    have hstep2 : update_goal_detect gn rk
        ({ s with t_goal_reached := some a.t }) b.t b.gd b.rd =
        ({ s with t_goal_reached := none }, s.goal_reached) := by
      rw [update_goal_detect_char, if_neg (by simp [hqb])]
    constructor
    · simp only [runGoalDetectOuts, hstep1, hstep2]
      simp [hf]
    · simp only [runGoalDetect, hstep1, hstep2]
      exact hf

/-- C3 witness: over the scene with single goal `Feed1`, two qualifying
evaluations 0.3 s apart raise the flag and admit the required qualifying
segment, while a qualifying evaluation followed by a non-matching one emits
false at both ticks. -/
theorem goal_detect_debounce_witness :
    RaisedSeg ["Feed1"] [goalRouteptKey "Feed1"]
      [GDInput.mk 0 [0, 9/10] [9/10], GDInput.mk (3/10) [0, 9/10] [9/10]] ∧
    runGoalDetectOuts ["Feed1"] [goalRouteptKey "Feed1"]
      (ControllerState.mk false none (some "NONE") false (0, 0) (0, 0)
        none none none none)
      [GDInput.mk 0 [0, 9/10] [9/10], GDInput.mk (1/10) [0, 0] [0]] =
      [false, false] := by
  have hq : gd_qualifies ["Feed1"] [goalRouteptKey "Feed1"]
      [0, 9/10] [9/10] = true := by
    norm_num [gd_qualifies, npArgmax, npMax, List.foldl, List.findIdx,
      List.findIdx.go, max_def]
  have hnq : gd_qualifies ["Feed1"] [goalRouteptKey "Feed1"]
      [0, 0] [0] = false := by
    norm_num [gd_qualifies, npMax, List.foldl, max_def]
  constructor
  · refine (goal_detect_debounce ["Feed1"] [goalRouteptKey "Feed1"]).1
      (ControllerState.mk false none (some "NONE") false (0, 0) (0, 0)
        none none none none) _ rfl rfl ?_
    have h1 : update_goal_detect ["Feed1"] [goalRouteptKey "Feed1"]
        (ControllerState.mk false none (some "NONE") false (0, 0) (0, 0)
          none none none none) 0 [0, 9/10] [9/10] =
        (ControllerState.mk false none (some "NONE") false (0, 0) (0, 0)
          none none none (some 0), false) := by
      rw [update_goal_detect_char, if_pos hq]
    have h2 : update_goal_detect ["Feed1"] [goalRouteptKey "Feed1"]
        (ControllerState.mk false none (some "NONE") false (0, 0) (0, 0)
          none none none (some 0)) (3/10) [0, 9/10] [9/10] =
        (ControllerState.mk true none (some "NONE") false (0, 0) (0, 0)
          none none none none, true) := by
      rw [update_goal_detect_char, if_pos hq]
      norm_num
    simp only [runGoalDetect, h1, h2]
  · exact ((goal_detect_debounce ["Feed1"] [goalRouteptKey "Feed1"]).2
      (ControllerState.mk false none (some "NONE") false (0, 0) (0, 0)
        none none none none)
      (GDInput.mk 0 [0, 9/10] [9/10]) (GDInput.mk (1/10) [0, 0] [0])
      rfl rfl hq hnq).1

lemma update_goal_detect_latch (gn rk : List String) (s : ControllerState)
    (t : ℚ) (gd rd : List ℚ) (h : s.goal_reached = true) :
    (update_goal_detect gn rk s t gd rd).1.goal_reached = true ∧
    (update_goal_detect gn rk s t gd rd).2 = true := by
  rw [update_goal_detect_char]
  by_cases hq : gd_qualifies gn rk gd rd = true
  · rw [if_pos hq]
    cases hgr : s.t_goal_reached with
    | none => exact ⟨h, h⟩
    | some t0 =>
        dsimp only
        by_cases htt : t0 + 1/5 < t
        · rw [if_pos htt]; exact ⟨rfl, rfl⟩
        · rw [if_neg htt]; exact ⟨h, h⟩
  · rw [if_neg hq]; exact ⟨h, h⟩

lemma runGoalDetect_latch (gn rk : List String) (L : List GDInput) :
    ∀ s : ControllerState, s.goal_reached = true →
      runGoalDetectOuts gn rk s L = List.replicate L.length true ∧
      (runGoalDetect gn rk s L).goal_reached = true := by
  induction L with
  | nil => intro s h; exact ⟨rfl, h⟩
  | cons a L ih =>
      intro s h
      obtain ⟨h1, h2⟩ := update_goal_detect_latch gn rk s a.t a.gd a.rd h
      obtain ⟨ih1, ih2⟩ := ih _ h1
      refine ⟨?_, ?_⟩
      · rw [runGoalDetectOuts, h2, ih1]; rfl
      · rw [runGoalDetect]; exact ih2

/-- C10: the goal-reached flag latches.  Once true, every further evaluation
of the goal-detection node emits true and keeps the flag true; the
global-vector, displacement and goal-input nodes and `on_displace` never
change the flag; and the only operation that changes it is a `set_goal`
call that succeeds with a valid goal name different from the current goal,
which resets it to false. -/
theorem goal_reached_latching (gn rk : List String)
    (gvocab : String → List ℚ) (sp_dim : ℕ) :
    (∀ (s : ControllerState) (L : List GDInput), s.goal_reached = true →
        runGoalDetectOuts gn rk s L = List.replicate L.length true ∧
        (runGoalDetect gn rk s L).goal_reached = true) ∧
    (∀ (s : ControllerState) (x : ℚ × ℚ),
        (update_global_vec s x).1.goal_reached = s.goal_reached) ∧
    (∀ (s : ControllerState) (t : ℚ),
        (update_displace s t).1.goal_reached = s.goal_reached) ∧
    (∀ (s : ControllerState) (t : ℚ) (x : List ℚ),
        (update_goal_input gvocab sp_dim s t x).1.goal_reached =
          s.goal_reached) ∧
    (∀ s : ControllerState, (on_displace s).goal_reached = s.goal_reached) ∧
    (∀ (s : ControllerState) (name : String),
        (set_goal gn s name).1.goal_reached ≠ s.goal_reached →
        (set_goal gn s name).2 = false ∧ name ∈ gn ∧
        s.goal_name ≠ some name ∧
        (set_goal gn s name).1.goal_reached = false) := by
  refine ⟨?_, ?_, ?_, ?_, ?_, ?_⟩
  · intro s L h
    exact runGoalDetect_latch gn rk L s h
  · intro s x
    unfold update_global_vec
    by_cases h1 : s.displaced = false ∧ s.t_displace = none
    · rw [if_pos h1]
      dsimp only
      by_cases h2 : x.1 - s.bot_prev_pos.1 ≠ 0 ∨ x.2 - s.bot_prev_pos.2 ≠ 0
      · rw [if_pos h2]
      · rw [if_neg h2]
    · rw [if_neg h1]
  · intro s t
    unfold update_displace
    cases hd : s.displaced
    · cases htd : s.t_displace with
      | none => rfl
      | some t0 =>
          by_cases h : t < t0 + 1/10
          · simp only [Bool.false_eq_true, if_false, h, if_true, if_pos h]
          · simp only [Bool.false_eq_true, if_false, h, if_neg h]
    · rfl
  · intro s t x
    unfold update_goal_input
    cases hng : s.new_goal_name with
    | none =>
        cases htn : s.t_new_goal with
        | none => rfl
        | some t0 =>
            by_cases h : t < t0 + 1/10
            · simp only [if_pos h]
            · simp only [if_neg h]
    | some ng => rfl
  · intro s
    rfl
  · intro s name hne
    unfold set_goal at hne ⊢
    by_cases h1 : s.goal_name = some name
    · rw [if_pos h1] at hne
      exact absurd rfl hne
    · by_cases h2 : name ∈ gn
      · rw [if_neg h1, if_pos h2] at hne ⊢
        exact ⟨rfl, h2, h1, rfl⟩
      · rw [if_neg h1, if_neg h2] at hne
        exact absurd rfl hne

/-- C10 witness: with the flag already raised, a further goal-detection
evaluation emits true, and a successful goal change away from the concrete
current goal resets the flag. -/
theorem goal_reached_latching_witness :
    runGoalDetectOuts ["Feed1"] [goalRouteptKey "Feed1"]
      (ControllerState.mk true (some "Feed1") none false (0, 0) (0, 0)
        none none none none) [GDInput.mk 0 [] []] = List.replicate 1 true ∧
    ((set_goal ["Nest", "Feed1"]
        (ControllerState.mk true (some "Feed1") none false (0, 0) (0, 0)
          none none none none) "Nest").2 = false ∧
      "Nest" ∈ ["Nest", "Feed1"] ∧
      (ControllerState.mk true (some "Feed1") none false (0, 0) (0, 0)
        none none none none).goal_name ≠ some "Nest" ∧
      (set_goal ["Nest", "Feed1"]
        (ControllerState.mk true (some "Feed1") none false (0, 0) (0, 0)
          none none none none) "Nest").1.goal_reached = false) :=
  ⟨((goal_reached_latching ["Feed1"] [goalRouteptKey "Feed1"]
      (fun _ => []) 0).1
      (ControllerState.mk true (some "Feed1") none false (0, 0) (0, 0)
        none none none none) [GDInput.mk 0 [] []] rfl).1,
    (goal_reached_latching ["Nest", "Feed1"] [] (fun _ => []) 0).2.2.2.2.2
      (ControllerState.mk true (some "Feed1") none false (0, 0) (0, 0)
        none none none none) "Nest" (by decide)⟩

lemma update_wheel_speeds_cases (a b : ℝ) :
    (Real.sqrt (a ^ 2 + b ^ 2) < 0.05 → update_wheel_speeds (a, b) = (0, 0)) ∧
    (¬ Real.sqrt (a ^ 2 + b ^ 2) < 0.05 →
      (-0.4 < Complex.arg ⟨a, b⟩ ∧ Complex.arg ⟨a, b⟩ < 0.4) →
      update_wheel_speeds (a, b) =
        (5 - Complex.arg ⟨a, b⟩, 5 + Complex.arg ⟨a, b⟩)) ∧
    (¬ Real.sqrt (a ^ 2 + b ^ 2) < 0.05 →
      ¬ (-0.4 < Complex.arg ⟨a, b⟩ ∧ Complex.arg ⟨a, b⟩ < 0.4) →
      update_wheel_speeds (a, b) =
        (-5 * Complex.arg ⟨a, b⟩, 5 * Complex.arg ⟨a, b⟩)) := by
  unfold update_wheel_speeds
  dsimp only
  refine ⟨fun h => by rw [if_pos h], fun h1 h2 => by rw [if_neg h1, if_pos h2],
    fun h1 h2 => by rw [if_neg h1, if_neg h2]⟩

lemma arg_mk_ofReal (r : ℝ) (h : 0 ≤ r) : Complex.arg ⟨r, 0⟩ = 0 := by
  have he : (⟨r, 0⟩ : ℂ) = (r : ℂ) := by
    apply Complex.ext <;> simp
  rw [he]
  exact Complex.arg_ofReal_of_nonneg h

lemma arg_mk_cos_sin : Complex.arg ⟨Real.cos 0.4, Real.sin 0.4⟩ = 0.4 := by
  rw [Complex.mk_eq_add_mul_I, Complex.ofReal_cos, Complex.ofReal_sin]
  refine Complex.arg_cos_add_sin_mul_I (Set.mem_Ioc.mpr ⟨?_, ?_⟩)
  · nlinarith [Real.pi_gt_three]
  · nlinarith [Real.pi_gt_three]

/-- C1 counterexample: at a motion vector of Euclidean norm exactly 0.05 the
code does not stop but outputs the forward pair (5, 5), and at heading error
exactly 0.4 rad it does not move forward but rotates in place with (-2, 2):
both boundaries fall to the other branch than the claim states. -/
theorem wheel_speeds_boundary_counterexample :
    Real.sqrt ((0.05 : ℝ) ^ 2 + 0 ^ 2) = 0.05 ∧
    update_wheel_speeds (0.05, 0) = (5, 5) ∧
    ((5 : ℝ), (5 : ℝ)) ≠ ((0, 0) : ℝ × ℝ) ∧
    |Complex.arg ⟨Real.cos 0.4, Real.sin 0.4⟩| = 0.4 ∧
    update_wheel_speeds (Real.cos 0.4, Real.sin 0.4) = (-2, 2) ∧
    ((-2 : ℝ), (2 : ℝ)) ≠ ((5 - 0.4, 5 + 0.4) : ℝ × ℝ) := by
  have hs : Real.sqrt ((0.05 : ℝ) ^ 2 + 0 ^ 2) = 0.05 := by
    rw [show (0.05 : ℝ) ^ 2 + 0 ^ 2 = 0.05 ^ 2 by norm_num]
    exact Real.sqrt_sq (by norm_num)
  have harg : Complex.arg ⟨(0.05 : ℝ), (0 : ℝ)⟩ = 0 :=
    arg_mk_ofReal 0.05 (by norm_num)
  have h2 : update_wheel_speeds (0.05, 0) = (5, 5) := by
    have := (update_wheel_speeds_cases 0.05 0).2.1
      (by rw [hs]; norm_num) (by rw [harg]; norm_num)
    rw [this, harg]
    norm_num
  have hn : Real.sqrt ((Real.cos 0.4) ^ 2 + (Real.sin 0.4) ^ 2) = 1 := by
    rw [Real.cos_sq_add_sin_sq, Real.sqrt_one]
  have h5 : update_wheel_speeds (Real.cos 0.4, Real.sin 0.4) = (-2, 2) := by
    have := (update_wheel_speeds_cases (Real.cos 0.4) (Real.sin 0.4)).2.2
      (by rw [hn]; norm_num)
      (by rw [arg_mk_cos_sin]; rintro ⟨-, hlt⟩; exact absurd hlt (by norm_num))
    rw [this, arg_mk_cos_sin]
    norm_num
  refine ⟨hs, h2, by simp, by rw [arg_mk_cos_sin]; norm_num, h5, ?_⟩
  intro h
  have h1 := congrArg Prod.fst h
  norm_num at h1

/-- C1 (amended): the stop branch applies exactly when the Euclidean norm of
the motion vector is strictly below 0.05 (at exactly 0.05 the heading logic
applies), and given that, forward motion `(5 - θ, 5 + θ)` applies exactly
when `|θ| < 0.4` (at exactly 0.4 the in-place rotation `(-5 θ, 5 θ)`
applies). -/
theorem wheel_speeds_two_regime (x : ℝ × ℝ) :
    (Real.sqrt (x.1 ^ 2 + x.2 ^ 2) < 0.05 → update_wheel_speeds x = (0, 0)) ∧
    (0.05 ≤ Real.sqrt (x.1 ^ 2 + x.2 ^ 2) →
      |Complex.arg ⟨x.1, x.2⟩| < 0.4 →
      update_wheel_speeds x =
        (5 - Complex.arg ⟨x.1, x.2⟩, 5 + Complex.arg ⟨x.1, x.2⟩)) ∧
    (0.05 ≤ Real.sqrt (x.1 ^ 2 + x.2 ^ 2) →
      0.4 ≤ |Complex.arg ⟨x.1, x.2⟩| →
      update_wheel_speeds x =
        (-5 * Complex.arg ⟨x.1, x.2⟩, 5 * Complex.arg ⟨x.1, x.2⟩)) := by
  obtain ⟨a, b⟩ := x
  obtain ⟨c1, c2, c3⟩ := update_wheel_speeds_cases a b
  exact ⟨c1, fun h1 h2 => c2 (not_lt.mpr h1) (abs_lt.mp h2),
    fun h1 h2 => c3 (not_lt.mpr h1)
      (fun hc => absurd (abs_lt.mpr hc) (not_lt.mpr h2))⟩

/-- C1 witness: the unit vector along the x axis has norm 1 and heading error
0, so the forward branch emits (5, 5). -/
theorem wheel_speeds_two_regime_witness :
    (0.05 : ℝ) ≤ Real.sqrt ((1 : ℝ) ^ 2 + 0 ^ 2) ∧
    |Complex.arg ⟨(1 : ℝ), (0 : ℝ)⟩| < 0.4 ∧
    update_wheel_speeds (1, 0) = (5, 5) := by
  have hs : Real.sqrt ((1 : ℝ) ^ 2 + 0 ^ 2) = 1 := by
    rw [show (1 : ℝ) ^ 2 + 0 ^ 2 = 1 by norm_num, Real.sqrt_one]
  have harg : Complex.arg ⟨(1 : ℝ), (0 : ℝ)⟩ = 0 := arg_mk_ofReal 1 (by norm_num)
  refine ⟨by rw [hs]; norm_num, by rw [harg]; norm_num, ?_⟩
  have h := (wheel_speeds_two_regime (1, 0)).2.1
    (by show (0.05 : ℝ) ≤ Real.sqrt ((1 : ℝ) ^ 2 + 0 ^ 2); rw [hs]; norm_num)
    (by show |Complex.arg ⟨(1 : ℝ), (0 : ℝ)⟩| < 0.4; rw [harg]; norm_num)
  have h2 : update_wheel_speeds (1, 0) =
      (5 - Complex.arg ⟨(1 : ℝ), (0 : ℝ)⟩,
       5 + Complex.arg ⟨(1 : ℝ), (0 : ℝ)⟩) := h
  rw [h2, harg]
  norm_num

lemma catchVecNorm_abs (wpos : List (ℝ × ℝ)) (x : CatchVecInput) :
    catchVecNorm wpos x =
      |(catchVecRaw wpos x).1| + |(catchVecRaw wpos x).2| := by
  unfold catchVecNorm
  rw [Real.sqrt_sq_eq_abs, Real.sqrt_sq_eq_abs]

/-- C6 counterexample: with the robot at (-0.03, -0.04) and the waypoint at
the origin, the code emits (3/7, 4/7), whose Euclidean norm is 5/7, not the
claimed unit vector; and at the exact waypoint center (normalized distance 0)
the guard fails and the code emits (0, 0, 0) instead of a unit vector with
gain 1. -/
theorem catch_vec_unit_counterexample :
    update_catch_vec (1/2) (1/2) [((0 : ℝ), (0 : ℝ))]
        (CatchVecInput.mk 0 (1/2) (-(3/100), -(1/25)) (9/10)) =
      (3/7, 4/7, 1) ∧
    Real.sqrt ((3/7 : ℝ) ^ 2 + (4/7) ^ 2) ≠ 1 ∧
    update_catch_vec (1/2) (1/2) [((0 : ℝ), (0 : ℝ))]
        (CatchVecInput.mk 0 0 ((0 : ℝ), (0 : ℝ)) (9/10)) = (0, 0, 0) := by
  have hr : catchVecRaw [((0 : ℝ), (0 : ℝ))]
      (CatchVecInput.mk 0 (1/2) (-(3/100), -(1/25)) (9/10)) =
      (3/100, 1/25) := by
    unfold catchVecRaw
    norm_num [List.getD]
  have hn : catchVecNorm [((0 : ℝ), (0 : ℝ))]
      (CatchVecInput.mk 0 (1/2) (-(3/100), -(1/25)) (9/10)) = 7/100 := by
    unfold catchVecNorm
    rw [hr]
    dsimp only
    rw [Real.sqrt_sq (by norm_num : (0:ℝ) ≤ 3/100),
      Real.sqrt_sq (by norm_num : (0:ℝ) ≤ 1/25)]
    norm_num
  refine ⟨?_, ?_, ?_⟩
  · unfold update_catch_vec
    rw [if_pos ⟨by show (0:ℝ) < 1/2; norm_num,
      by show (1/2:ℝ) < 9/10; norm_num⟩, hr, hn]
    dsimp only
    norm_num
  · rw [show ((3/7 : ℝ) ^ 2 + (4/7) ^ 2) = (5/7) ^ 2 by norm_num,
      Real.sqrt_sq (by norm_num : (0:ℝ) ≤ 5/7)]
    norm_num
  · unfold update_catch_vec
    rw [if_neg (by intro hc; exact absurd hc.1 (by norm_num : ¬ (0:ℝ) < 0))]

/-- C6 (amended): with the normalized waypoint distance strictly positive
(the exact waypoint center is excluded by the guard) and the fed-back
view-match comparison strictly above the threshold, the node emits the
waypoint-pointing vector normalized by the sum of the absolute values of its
components (the L1 norm, so the output has L1-norm 1 whenever the vector is
nonzero) with gain `min((1 - d)/(1 - core), 1)`, which saturates to 1 for
`d ≤ core`; otherwise it emits the zero vector with zero gain. -/
theorem catch_vec_characterization (thres core : ℝ) (wpos : List (ℝ × ℝ))
    (x : CatchVecInput) :
    (0 < x.norm_waypt_dist → thres < x.view7view →
      update_catch_vec thres core wpos x =
        ((catchVecRaw wpos x).1 / catchVecNorm wpos x,
         (catchVecRaw wpos x).2 / catchVecNorm wpos x,
         min ((1 - x.norm_waypt_dist) / (1 - core)) 1)) ∧
    (¬ (0 < x.norm_waypt_dist ∧ thres < x.view7view) →
      update_catch_vec thres core wpos x = (0, 0, 0)) ∧
    (0 < x.norm_waypt_dist → thres < x.view7view →
      catchVecRaw wpos x ≠ (0, 0) →
      |(update_catch_vec thres core wpos x).1| +
        |(update_catch_vec thres core wpos x).2.1| = 1) ∧
    (0 < x.norm_waypt_dist → thres < x.view7view → core < 1 →
      x.norm_waypt_dist ≤ core →
      (update_catch_vec thres core wpos x).2.2 = 1) := by
  have hc1 : ∀ (h1 : 0 < x.norm_waypt_dist) (h2 : thres < x.view7view),
      update_catch_vec thres core wpos x =
        ((catchVecRaw wpos x).1 / catchVecNorm wpos x,
         (catchVecRaw wpos x).2 / catchVecNorm wpos x,
         min ((1 - x.norm_waypt_dist) / (1 - core)) 1) := by
    intro h1 h2
    unfold update_catch_vec
    rw [if_pos ⟨h1, h2⟩]
  refine ⟨hc1, ?_, ?_, ?_⟩
  · intro h
    unfold update_catch_vec
    rw [if_neg h]
  · intro h1 h2 hv
    rw [hc1 h1 h2]
    have hne : (catchVecRaw wpos x).1 ≠ 0 ∨ (catchVecRaw wpos x).2 ≠ 0 := by
      by_contra hcon
      push_neg at hcon
      exact hv (Prod.ext_iff.mpr ⟨hcon.1, hcon.2⟩)
    have hpos : 0 < catchVecNorm wpos x := by
      rw [catchVecNorm_abs]
      rcases hne with h | h
      · exact add_pos_of_pos_of_nonneg (abs_pos.mpr h) (abs_nonneg _)
      · exact add_pos_of_nonneg_of_pos (abs_nonneg _) (abs_pos.mpr h)
    dsimp only
    rw [abs_div, abs_div, abs_of_pos hpos, div_add_div_same, ← catchVecNorm_abs]
    exact div_self (ne_of_gt hpos)
  · intro h1 h2 hcore hd
    rw [hc1 h1 h2]
    dsimp only
    exact min_eq_right ((one_le_div (by linarith)).mpr (by linarith))

/-- C6 witness: at the concrete in-range input the output has L1-norm 1 and,
with normalized distance equal to the core fraction, the gain saturates
to 1. -/
theorem catch_vec_characterization_witness :
    (0 : ℝ) < 1/2 ∧ (1/2 : ℝ) < 9/10 ∧
    catchVecRaw [((0 : ℝ), (0 : ℝ))]
      (CatchVecInput.mk 0 (1/2) (-(3/100), -(1/25)) (9/10)) ≠ (0, 0) ∧
    |(update_catch_vec (1/2) (1/2) [((0 : ℝ), (0 : ℝ))]
        (CatchVecInput.mk 0 (1/2) (-(3/100), -(1/25)) (9/10))).1| +
      |(update_catch_vec (1/2) (1/2) [((0 : ℝ), (0 : ℝ))]
        (CatchVecInput.mk 0 (1/2) (-(3/100), -(1/25)) (9/10))).2.1| = 1 ∧
    (update_catch_vec (1/2) (1/2) [((0 : ℝ), (0 : ℝ))]
        (CatchVecInput.mk 0 (1/2) (-(3/100), -(1/25)) (9/10))).2.2 = 1 := by
  have hr : catchVecRaw [((0 : ℝ), (0 : ℝ))]
      (CatchVecInput.mk 0 (1/2) (-(3/100), -(1/25)) (9/10)) =
      (3/100, 1/25) := by
    unfold catchVecRaw
    norm_num [List.getD]
  have hne : catchVecRaw [((0 : ℝ), (0 : ℝ))]
      (CatchVecInput.mk 0 (1/2) (-(3/100), -(1/25)) (9/10)) ≠ (0, 0) := by
    rw [hr]
    intro h
    exact absurd (congrArg Prod.fst h) (by norm_num : ¬ ((3:ℝ)/100 = 0))
  exact ⟨by norm_num, by norm_num, hne,
    (catch_vec_characterization (1/2) (1/2) _ _).2.2.1
      (by show (0:ℝ) < 1/2; norm_num) (by show (1/2:ℝ) < 9/10; norm_num) hne,
    (catch_vec_characterization (1/2) (1/2) _ _).2.2.2
      (by show (0:ℝ) < 1/2; norm_num) (by show (1/2:ℝ) < 9/10; norm_num)
      (by norm_num) (by show (1/2:ℝ) ≤ 1/2; norm_num)⟩

lemma sqDistList_min_isSome (l : List (ℚ × ℚ)) (h : 2 ≤ l.length) :
    ∃ m, (sqDistList l).min? = some m := by
  match l, h with
  | p :: q :: rest, _ =>
      rw [show sqDistList (p :: q :: rest) =
          ((p.1 - q.1) ^ 2 + (p.2 - q.2) ^ 2) ::
            (rest.map (fun r => (p.1 - r.1) ^ 2 + (p.2 - r.2) ^ 2) ++
              sqDistList (q :: rest)) from by simp [sqDistList]]
      exact ⟨_, rfl⟩

lemma getLast?_of_ne_nil {α : Type} (l : List α) (h : l ≠ []) :
    ∃ w, l.getLast? = some w := by
  cases hl : l.getLast? with
  | some w => exact ⟨w, rfl⟩
  | none => exact absurd (List.getLast?_eq_none_iff.mp hl) h

/-- C8: on a scene with at least two waypoint positions and nonempty routes,
`validate_params` fails if and only if one of the seven conditions of the
claim holds; otherwise it returns normally. -/
theorem validate_params_fails_iff (params : Params) (scene : Scene)
    (hw : 2 ≤ scene.waypts_pos.length)
    (hr : ∀ route ∈ scene.routes_waypts_names, route ≠ []) :
    ¬ validate_params_ok params scene ↔
      validate_params_fails_spec params scene := by
  obtain ⟨m0, hm0⟩ := sqDistList_min_isSome scene.waypts_pos hw
  unfold validate_params_ok validate_params_fails_spec
  constructor
  · intro hnok
    by_contra hnf
    push_neg at hnf
    obtain ⟨f1, f2, f3, f4, f5, f6, f7⟩ := hnf
    refine hnok ⟨by omega, f2, ⟨m0, hm0, f3 m0 hm0⟩, by linarith, ?_, ?_, f7⟩
    · have := List.length_pos.mpr f5
      omega
    · intro route hroute
      obtain ⟨w, hwl⟩ := getLast?_of_ne_nil route (hr route hroute)
      exact ⟨w, hwl, f6 route hroute w hwl⟩
  · intro hspec hok
    obtain ⟨o1, o2, o3, o4, o5, o6, o7⟩ := hok
    rcases hspec with h | h | h | h | h | h | h
    · omega
    · obtain ⟨g, hg, he⟩ := h
      exact o2 g hg he
    · obtain ⟨m, hm, hle⟩ := h
      obtain ⟨m2, hm2, hlt⟩ := o3
      rw [hm] at hm2
      have hq : m = m2 := by injection hm2
      rw [← hq] at hlt
      linarith
    · linarith
    · rw [h] at o5
      simp at o5
    · obtain ⟨route, hroute, w, hw1, hw2⟩ := h
      obtain ⟨w2, hw12, hw22⟩ := o6 route hroute
      rw [hw1] at hw12
      have hq : w = w2 := by injection hw12
      rw [← hq] at hw22
      exact hw2 hw22
    · obtain ⟨nm, h1, h2⟩ := h
      exact h2 (o7 nm h1)

/-- C8 witness: a concrete well-formed two-goal scene with two waypoints and
one route satisfies the side conditions, and the equivalence applies to it. -/
theorem validate_params_fails_iff_witness :
    2 ≤ (Scene.mk ["Nest", "Feed1"] [((0:ℚ), (0:ℚ)), (3, 4)] ["R1"]
      [["Nest", "Feed1"]]).waypts_pos.length ∧
    (∀ route ∈ (Scene.mk ["Nest", "Feed1"] [((0:ℚ), (0:ℚ)), (3, 4)] ["R1"]
      [["Nest", "Feed1"]]).routes_waypts_names, route ≠ []) ∧
    (¬ validate_params_ok (Params.mk 2 (1/2) [])
        (Scene.mk ["Nest", "Feed1"] [((0:ℚ), (0:ℚ)), (3, 4)] ["R1"]
          [["Nest", "Feed1"]]) ↔
      validate_params_fails_spec (Params.mk 2 (1/2) [])
        (Scene.mk ["Nest", "Feed1"] [((0:ℚ), (0:ℚ)), (3, 4)] ["R1"]
          [["Nest", "Feed1"]])) :=
  ⟨by decide, by decide, validate_params_fails_iff _ _ (by decide) (by decide)⟩
